import Mathlib

/-
  Verification of the audio-bridge lifecycle of
  src/android/app/src/main/jni/audio_bridge.c.

  The C file maintains `static audio_bridge_state bridges[MAX_SIMS]`
  (MAX_SIMS = 2) and four entry points: audio_bridge_init,
  audio_bridge_start, audio_bridge_stop, audio_bridge_destroy.
  Shell commands are issued through exec_root_cmd, which wraps the
  command in `su -c "..."` and calls system(); we abstract that external
  invocation as a `runner : String -> Int` giving the exit status of each
  command, and record each issued command in a trace, so that the issued
  command sequence is observable.  Pool acquisition
  (pjmedia_endpt_create_pool) is abstracted as a `poolResult : Nat`
  argument: the pointer value it returns, 0 meaning NULL (failure).
  Pointer fields (med_endpt, pool) are modelled as Nat values, 0 = NULL.
-/

namespace GsmGateway

/-- pjlib status codes: PJ_SUCCESS is 0; the error codes are distinct
nonzero values (pjlib derives them from PJ_ERRNO_START_STATUS = 70000). -/
def PJ_SUCCESS : Int := 0

/-- PJ_EUNKNOWN = PJ_ERRNO_START_STATUS + 1. -/
def PJ_EUNKNOWN : Int := 70001

/-- PJ_ENOMEM = PJ_ERRNO_START_STATUS + 2. -/
def PJ_ENOMEM : Int := 70002

/-- PJ_EINVAL = PJ_ERRNO_START_STATUS + 4. -/
def PJ_EINVAL : Int := 70004

/-- `#define MAX_SIMS 2` from audio_bridge.c / audio_bridge.h. -/
def MAX_SIMS : Int := 2

/-- The per-slot record `audio_bridge_state` of audio_bridge.c:
`pj_bool_t active; int slot; pjmedia_endpt *med_endpt; pj_pool_t *pool;`.
Pointers are modelled as Nat, 0 = NULL. -/
structure audio_bridge_state where
  active : Bool
  slot : Int
  med_endpt : Nat
  pool : Nat
deriving DecidableEq

/-- The all-zero record produced by `pj_bzero(bridge, sizeof(*bridge))`. -/
def zeroBridge : audio_bridge_state := ⟨false, 0, 0, 0⟩

/-- The process-wide state: the two records of
`static audio_bridge_state bridges[MAX_SIMS]`, plus two observation
channels for the external world: the sequence of shell commands issued so
far (`trace`) and the pool pointers passed to pj_pool_release so far
(`released`). -/
structure GlobalState where
  bridge0 : audio_bridge_state
  bridge1 : audio_bridge_state
  trace : List String
  released : List Nat
deriving DecidableEq

/-- `bridges[slot]`, read.  Only called with slot = 0 or 1. -/
def getBridge (st : GlobalState) (slot : Int) : audio_bridge_state :=
  if slot = 0 then st.bridge0 else st.bridge1

/-- `bridges[slot] = b`, write.  Only called with slot = 0 or 1. -/
def setBridge (st : GlobalState) (slot : Int) (b : audio_bridge_state) : GlobalState :=
  if slot = 0 then ⟨b, st.bridge1, st.trace, st.released⟩
  else ⟨st.bridge0, b, st.trace, st.released⟩

/-- Replace the command trace. -/
def setTrace (st : GlobalState) (tr : List String) : GlobalState :=
  ⟨st.bridge0, st.bridge1, tr, st.released⟩

/-- `pj_pool_release(p)`: record the released pool pointer. -/
def releasePool (st : GlobalState) (p : Nat) : GlobalState :=
  ⟨st.bridge0, st.bridge1, st.trace, st.released ++ [p]⟩

/- The command strings of configure_sm6150_audio (audio_bridge.c lines
82-123).  \x27 is the apostrophe character. -/

/-- `tinymix 'Voice Rx Device Mute' 0 0 0` -/
def cmdRxDeviceMute0 : String := "tinymix \x27Voice Rx Device Mute\x27 0 0 0"

/-- `tinymix 'Voice Tx Device Mute' 0 0 0` -/
def cmdTxDeviceMute0 : String := "tinymix \x27Voice Tx Device Mute\x27 0 0 0"

/-- `tinymix 'Voice Tx Mute' 0 0 0` -/
def cmdTxMute0 : String := "tinymix \x27Voice Tx Mute\x27 0 0 0"

/-- `tinymix 'Voice Rx Gain' 20 20 20` -/
def cmdRxGain : String := "tinymix \x27Voice Rx Gain\x27 20 20 20"

/-- `tinymix 'HD Voice Enable' 1 1` -/
def cmdHdVoice : String := "tinymix \x27HD Voice Enable\x27 1 1"

/-- `service call audio 8 i32 1` -/
def cmdSpeakerOn : String := "service call audio 8 i32 1"

/-- `service call audio 28 i32 2` -/
def cmdModeInCall : String := "service call audio 28 i32 2"

/-- `service call audio 28 i32 0` -/
def cmdModeNormal : String := "service call audio 28 i32 0"

/-- `service call audio 8 i32 0` -/
def cmdSpeakerOff : String := "service call audio 8 i32 0"

/-- `tinymix 'Voice Rx Device Mute' -1 -1 -1` -/
def cmdRxDeviceMuteReset : String := "tinymix \x27Voice Rx Device Mute\x27 -1 -1 -1"

/-- `tinymix 'Voice Tx Device Mute' -1 -1 -1` -/
def cmdTxDeviceMuteReset : String := "tinymix \x27Voice Tx Device Mute\x27 -1 -1 -1"

/-- The enable sequence of configure_sm6150_audio (lines 82-107), in
source order. -/
def enableCmds : List String :=
  [cmdRxDeviceMute0, cmdTxDeviceMute0, cmdTxMute0, cmdRxGain, cmdHdVoice,
   cmdSpeakerOn, cmdModeInCall]

/-- The disable sequence of configure_sm6150_audio (lines 110-123), in
source order. -/
def disableCmds : List String :=
  [cmdModeNormal, cmdSpeakerOff, cmdRxDeviceMuteReset, cmdTxDeviceMuteReset]

/-- exec_root_cmd (lines 59-74): wraps cmd in `su -c "..."`, runs it via
system(), returns PJ_EUNKNOWN on nonzero exit status and PJ_SUCCESS
otherwise.  The runner abstracts the invocation; the issued command is
appended to the trace. -/
def exec_root_cmd (runner : String → Int) (cmd : String) (tr : List String) :
    Int × List String :=
  if runner cmd ≠ 0 then (PJ_EUNKNOWN, tr ++ [cmd]) else (PJ_SUCCESS, tr ++ [cmd])

/-- configure_sm6150_audio (lines 79-126).  The enable branch issues the
five tinymix commands fail-fast (each `if ... != PJ_SUCCESS) return
PJ_EUNKNOWN`), then the two `service call audio` commands whose failures
are only logged (lines 97-107: "Not necessarily fatal, can proceed but
log the error").  The disable branch issues four commands, all
fail-fast. -/
def configure_sm6150_audio (runner : String → Int) (enable : Bool)
    (tr : List String) : Int × List String :=
  if enable then
    let s1 := exec_root_cmd runner cmdRxDeviceMute0 tr
    if s1.1 ≠ PJ_SUCCESS then (PJ_EUNKNOWN, s1.2) else
    let s2 := exec_root_cmd runner cmdTxDeviceMute0 s1.2
    if s2.1 ≠ PJ_SUCCESS then (PJ_EUNKNOWN, s2.2) else
    let s3 := exec_root_cmd runner cmdTxMute0 s2.2
    if s3.1 ≠ PJ_SUCCESS then (PJ_EUNKNOWN, s3.2) else
    let s4 := exec_root_cmd runner cmdRxGain s3.2
    if s4.1 ≠ PJ_SUCCESS then (PJ_EUNKNOWN, s4.2) else
    let s5 := exec_root_cmd runner cmdHdVoice s4.2
    if s5.1 ≠ PJ_SUCCESS then (PJ_EUNKNOWN, s5.2) else
    let s6 := exec_root_cmd runner cmdSpeakerOn s5.2
    let s7 := exec_root_cmd runner cmdModeInCall s6.2
    (PJ_SUCCESS, s7.2)
  else
    let s1 := exec_root_cmd runner cmdModeNormal tr
    if s1.1 ≠ PJ_SUCCESS then (PJ_EUNKNOWN, s1.2) else
    let s2 := exec_root_cmd runner cmdSpeakerOff s1.2
    if s2.1 ≠ PJ_SUCCESS then (PJ_EUNKNOWN, s2.2) else
    let s3 := exec_root_cmd runner cmdRxDeviceMuteReset s2.2
    if s3.1 ≠ PJ_SUCCESS then (PJ_EUNKNOWN, s3.2) else
    let s4 := exec_root_cmd runner cmdTxDeviceMuteReset s3.2
    if s4.1 ≠ PJ_SUCCESS then (PJ_EUNKNOWN, s4.2) else
    (PJ_SUCCESS, s4.2)

/-- audio_bridge_init (lines 33-54): range check, pj_bzero the record,
store slot and med_endpt, acquire the pool (poolResult abstracts the
pointer returned by pjmedia_endpt_create_pool, 0 = NULL); PJ_ENOMEM when
the pool is NULL.  The C code forms `&bridges[slot]` before the range
check but dereferences nothing until after it. -/
def audio_bridge_init (slot : Int) (med_endpt : Nat) (poolResult : Nat)
    (st : GlobalState) : Int × GlobalState :=
  if slot < 0 ∨ MAX_SIMS ≤ slot then (PJ_EINVAL, st)
  else
    let b : audio_bridge_state := ⟨false, slot, med_endpt, poolResult⟩
    if poolResult = 0 then (PJ_ENOMEM, setBridge st slot b)
    else (PJ_SUCCESS, setBridge st slot b)

/-- audio_bridge_start (lines 131-167): range check; no-op PJ_SUCCESS if
already active; otherwise configure_sm6150_audio(PJ_TRUE), propagating
its failure, and on success set active.  local_sdp and remote_sdp are
accepted and never used, exactly as in the C code. -/
def audio_bridge_start (runner : String → Int) (slot : Int)
    (local_sdp remote_sdp : Nat) (st : GlobalState) : Int × GlobalState :=
  if slot < 0 ∨ MAX_SIMS ≤ slot then (PJ_EINVAL, st)
  else if (getBridge st slot).active then (PJ_SUCCESS, st)
  else
    let r := configure_sm6150_audio runner true st.trace
    let st1 := setTrace st r.2
    if r.1 ≠ PJ_SUCCESS then (r.1, st1)
    else
      let b := getBridge st1 slot
      (PJ_SUCCESS, setBridge st1 slot ⟨true, b.slot, b.med_endpt, b.pool⟩)

/-- audio_bridge_stop (lines 172-194): silent return on out-of-range slot
or inactive record; otherwise configure_sm6150_audio(PJ_FALSE) with its
result discarded, then `bridge->active = PJ_FALSE`. -/
def audio_bridge_stop (runner : String → Int) (slot : Int)
    (st : GlobalState) : GlobalState :=
  if slot < 0 ∨ MAX_SIMS ≤ slot then st
  else if ¬ (getBridge st slot).active then st
  else
    let r := configure_sm6150_audio runner false st.trace
    let st1 := setTrace st r.2
    let b := getBridge st1 slot
    setBridge st1 slot ⟨false, b.slot, b.med_endpt, b.pool⟩

/-- audio_bridge_destroy (lines 199-220): silent return on out-of-range
slot; otherwise audio_bridge_stop(slot), then release the pool if
non-NULL and set it to NULL, then pj_bzero the record. -/
def audio_bridge_destroy (runner : String → Int) (slot : Int)
    (st : GlobalState) : GlobalState :=
  if slot < 0 ∨ MAX_SIMS ≤ slot then st
  else
    let st1 := audio_bridge_stop runner slot st
    let b := getBridge st1 slot
    let st2 := if b.pool ≠ 0
      then setBridge (releasePool st1 b.pool) slot ⟨b.active, b.slot, b.med_endpt, 0⟩
      else st1
    setBridge st2 slot zeroBridge

/-- A runner on which every command succeeds. -/
def okRunner : String → Int := fun _ => 0

/-- A runner on which every command fails. -/
def failRunner : String → Int := fun _ => 1

/-- A fresh state: both records zeroed, nothing issued or released. -/
def initialState : GlobalState := ⟨zeroBridge, zeroBridge, [], []⟩

/-- A state whose slot-0 record is active, with endpoint 3 and pool 7. -/
def stActive0 : GlobalState := ⟨⟨true, 0, 3, 7⟩, zeroBridge, [], []⟩

/-- A state whose slot-1 record is initialized (inactive) with pool 9. -/
def stPool1 : GlobalState := ⟨zeroBridge, ⟨false, 1, 3, 9⟩, [], []⟩

/-- A runner that fails exactly on `service call audio 8 i32 1`. -/
def failSpeakerRunner : String → Int :=
  fun c => if c = cmdSpeakerOn then 1 else 0

/-- A runner that fails exactly on `tinymix 'Voice Tx Mute' 0 0 0`. -/
def failTxMuteRunner : String → Int :=
  fun c => if c = cmdTxMute0 then 1 else 0

/-- The empty command string, used as a list-lookup default. -/
def noCmd : String := ""

/- ------------------------------------------------------------------ -/
/- Helper lemmas                                                      -/
/- ------------------------------------------------------------------ -/

/-- An in-range slot does not satisfy the C range-check condition. -/
theorem inRange_cond {slot : Int} (h0 : 0 ≤ slot) (h1 : slot < MAX_SIMS) :
    ¬ (slot < 0 ∨ MAX_SIMS ≤ slot) := by omega

/-- Reading back the record just written. -/
theorem getBridge_setBridge (st : GlobalState) (slot : Int)
    (b : audio_bridge_state) : getBridge (setBridge st slot b) slot = b := by
  unfold getBridge setBridge
  by_cases h : slot = 0 <;> simp [h]

/-- Replacing the trace leaves every record unchanged. -/
theorem getBridge_setTrace (st : GlobalState) (tr : List String) (slot : Int) :
    getBridge (setTrace st tr) slot = getBridge st slot := by
  unfold getBridge setTrace
  by_cases h : slot = 0 <;> simp [h]

/-- Writing a record leaves the trace unchanged. -/
theorem setBridge_trace (st : GlobalState) (slot : Int)
    (b : audio_bridge_state) : (setBridge st slot b).trace = st.trace := by
  unfold setBridge
  by_cases h : slot = 0 <;> simp [h]

/-- Writing a record leaves the released list unchanged. -/
theorem setBridge_released (st : GlobalState) (slot : Int)
    (b : audio_bridge_state) : (setBridge st slot b).released = st.released := by
  unfold setBridge
  by_cases h : slot = 0 <;> simp [h]

/-- Replacing the trace installs exactly that trace. -/
theorem setTrace_trace (st : GlobalState) (tr : List String) :
    (setTrace st tr).trace = tr := rfl

/-- Releasing a pool leaves the trace unchanged. -/
theorem releasePool_trace (st : GlobalState) (p : Nat) :
    (releasePool st p).trace = st.trace := rfl

/-- On an all-succeeding runner the enable branch of
configure_sm6150_audio succeeds and issues exactly the enable sequence. -/
theorem configure_enable_ok (runner : String → Int) (hok : ∀ c, runner c = 0)
    (tr : List String) :
    configure_sm6150_audio runner true tr = (PJ_SUCCESS, tr ++ enableCmds) := by
  simp [configure_sm6150_audio, exec_root_cmd, hok, enableCmds]

/-- On an all-succeeding runner the disable branch of
configure_sm6150_audio succeeds and issues exactly the disable
sequence. -/
theorem configure_disable_ok (runner : String → Int) (hok : ∀ c, runner c = 0)
    (tr : List String) :
    configure_sm6150_audio runner false tr = (PJ_SUCCESS, tr ++ disableCmds) := by
  simp [configure_sm6150_audio, exec_root_cmd, hok, disableCmds]

/-- On an in-range slot whose record is already active, start is a pure
no-op success. -/
theorem start_already_active (runner : String → Int) (slot : Int)
    (local_sdp remote_sdp : Nat) (st : GlobalState)
    (h0 : 0 ≤ slot) (h1 : slot < MAX_SIMS)
    (ha : (getBridge st slot).active = true) :
    audio_bridge_start runner slot local_sdp remote_sdp st =
      (PJ_SUCCESS, st) := by
  have hc := inRange_cond h0 h1
  unfold audio_bridge_start
  rw [if_neg hc, if_pos (by simp [ha])]

/-- A start call that returns PJ_SUCCESS leaves the slot's record
active. -/
theorem start_success_active (runner : String → Int) (slot : Int)
    (local_sdp remote_sdp : Nat) (st : GlobalState)
    (h0 : 0 ≤ slot) (h1 : slot < MAX_SIMS)
    (hs : (audio_bridge_start runner slot local_sdp remote_sdp st).1 =
      PJ_SUCCESS) :
    (getBridge (audio_bridge_start runner slot local_sdp remote_sdp st).2
      slot).active = true := by
  have hc := inRange_cond h0 h1
  by_cases ha : (getBridge st slot).active = true
  · rw [start_already_active runner slot local_sdp remote_sdp st h0 h1 ha]
    exact ha
  · have hin : (getBridge st slot).active = false := by
      simpa using ha
    by_cases hcfg :
        (configure_sm6150_audio runner true st.trace).1 = PJ_SUCCESS
    · unfold audio_bridge_start
      rw [if_neg hc, if_neg (by simp [hin])]
      simp [hcfg, getBridge_setBridge]
    · exfalso
      unfold audio_bridge_start at hs
      rw [if_neg hc, if_neg (by simp [hin])] at hs
      simp [hcfg] at hs

/- ------------------------------------------------------------------ -/
/- Claim theorems                                                     -/
/- ------------------------------------------------------------------ -/

/-- C2 counterexample: on a runner on which every command fails, the
first start on fresh slot 0 does not return PJ_SUCCESS, and the second
start issues the first routing command again, so the routing sequence is
not performed at most once; this refutes the claim that both calls return
success regardless of the runner's results. -/
theorem C2_counterexample :
    (audio_bridge_start failRunner 0 0 0 initialState).1 ≠ PJ_SUCCESS ∧
    (audio_bridge_start failRunner 0 0 0
        (audio_bridge_start failRunner 0 0 0 initialState).2).2.trace =
      [cmdRxDeviceMute0, cmdRxDeviceMute0] := by decide

/-- C2 (amended): for an in-range slot, when the first start returns
PJ_SUCCESS, a second start without an intervening stop is a pure no-op
success: it returns PJ_SUCCESS and leaves the state (including the
command trace) unchanged, so the routing sequence is performed at most
once. -/
theorem C2_second_start_noop (runner : String → Int) (slot : Int)
    (local_sdp remote_sdp : Nat) (st : GlobalState)
    (h0 : 0 ≤ slot) (h1 : slot < MAX_SIMS)
    (hs : (audio_bridge_start runner slot local_sdp remote_sdp st).1 =
      PJ_SUCCESS) :
    audio_bridge_start runner slot local_sdp remote_sdp
        ((audio_bridge_start runner slot local_sdp remote_sdp st).2) =
      (PJ_SUCCESS,
        (audio_bridge_start runner slot local_sdp remote_sdp st).2) :=
  start_already_active runner slot local_sdp remote_sdp _ h0 h1
    (start_success_active runner slot local_sdp remote_sdp st h0 h1 hs)

/-- C2 witness: with the all-succeeding runner on fresh slot 0, the first
start succeeds and the second start is a no-op success. -/
theorem C2_witness :
    (0 : Int) ≤ 0 ∧ (0 : Int) < MAX_SIMS ∧
    (audio_bridge_start okRunner 0 5 6 initialState).1 = PJ_SUCCESS ∧
    audio_bridge_start okRunner 0 5 6
        ((audio_bridge_start okRunner 0 5 6 initialState).2) =
      (PJ_SUCCESS, (audio_bridge_start okRunner 0 5 6 initialState).2) :=
  ⟨by decide, by decide, by decide,
    C2_second_start_noop okRunner 0 5 6 initialState (by decide) (by decide)
      (by decide)⟩

/-- C3 counterexample: on a runner that fails exactly on
`service call audio 8 i32 1`, a command issued during start's routing
sequence fails, yet start still returns PJ_SUCCESS and still issues the
following command (`service call audio 28 i32 2`): it neither stops
issuing further commands nor returns the failure. -/
theorem C3_counterexample :
    failSpeakerRunner cmdSpeakerOn ≠ 0 ∧
    (audio_bridge_start failSpeakerRunner 0 0 0 initialState).1 =
      PJ_SUCCESS ∧
    (audio_bridge_start failSpeakerRunner 0 0 0 initialState).2.trace =
      [cmdRxDeviceMute0, cmdTxDeviceMute0, cmdTxMute0, cmdRxGain,
       cmdHdVoice, cmdSpeakerOn, cmdModeInCall] := by decide

/-- C3 (amended): start fails fast on the five tinymix commands of its
routing sequence: for an in-range inactive slot, if the first k commands
succeed and command k (k < 5) fails, start returns PJ_EUNKNOWN and the
trace shows that no command after the failing one was issued; failures of
the final two service-call commands are only logged (see the
counterexample). -/
theorem C3_tinymix_fail_fast (runner : String → Int) (slot : Int)
    (local_sdp remote_sdp : Nat) (st : GlobalState)
    (h0 : 0 ≤ slot) (h1 : slot < MAX_SIMS)
    (hin : (getBridge st slot).active = false)
    (k : Nat) (hk : k < 5)
    (hbefore : ∀ c ∈ enableCmds.take k, runner c = 0)
    (hfail : runner (enableCmds.getD k noCmd) ≠ 0) :
    (audio_bridge_start runner slot local_sdp remote_sdp st).1 =
      PJ_EUNKNOWN ∧
    (audio_bridge_start runner slot local_sdp remote_sdp st).2.trace =
      st.trace ++ enableCmds.take (k + 1) := by
  have hc := inRange_cond h0 h1
  interval_cases k
  · simp only [enableCmds, List.getD_cons_zero] at hfail
    unfold audio_bridge_start
    rw [if_neg hc, if_neg (by simp [hin])]
    simp [configure_sm6150_audio, exec_root_cmd, hfail, enableCmds,
      PJ_SUCCESS, PJ_EUNKNOWN, setTrace_trace]
  · have hb0 : runner cmdRxDeviceMute0 = 0 := hbefore _ (by simp [enableCmds])
    simp only [enableCmds, List.getD_cons_zero, List.getD_cons_succ] at hfail
    unfold audio_bridge_start
    rw [if_neg hc, if_neg (by simp [hin])]
    simp [configure_sm6150_audio, exec_root_cmd, hb0, hfail, enableCmds,
      PJ_SUCCESS, PJ_EUNKNOWN, setTrace_trace]
  · have hb0 : runner cmdRxDeviceMute0 = 0 := hbefore _ (by simp [enableCmds])
    have hb1 : runner cmdTxDeviceMute0 = 0 := hbefore _ (by simp [enableCmds])
    simp only [enableCmds, List.getD_cons_zero, List.getD_cons_succ] at hfail
    unfold audio_bridge_start
    rw [if_neg hc, if_neg (by simp [hin])]
    simp [configure_sm6150_audio, exec_root_cmd, hb0, hb1, hfail, enableCmds,
      PJ_SUCCESS, PJ_EUNKNOWN, setTrace_trace]
  · have hb0 : runner cmdRxDeviceMute0 = 0 := hbefore _ (by simp [enableCmds])
    have hb1 : runner cmdTxDeviceMute0 = 0 := hbefore _ (by simp [enableCmds])
    have hb2 : runner cmdTxMute0 = 0 := hbefore _ (by simp [enableCmds])
    simp only [enableCmds, List.getD_cons_zero, List.getD_cons_succ] at hfail
    unfold audio_bridge_start
    rw [if_neg hc, if_neg (by simp [hin])]
    simp [configure_sm6150_audio, exec_root_cmd, hb0, hb1, hb2, hfail,
      enableCmds, PJ_SUCCESS, PJ_EUNKNOWN, setTrace_trace]
  · have hb0 : runner cmdRxDeviceMute0 = 0 := hbefore _ (by simp [enableCmds])
    have hb1 : runner cmdTxDeviceMute0 = 0 := hbefore _ (by simp [enableCmds])
    have hb2 : runner cmdTxMute0 = 0 := hbefore _ (by simp [enableCmds])
    have hb3 : runner cmdRxGain = 0 := hbefore _ (by simp [enableCmds])
    simp only [enableCmds, List.getD_cons_zero, List.getD_cons_succ] at hfail
    unfold audio_bridge_start
    rw [if_neg hc, if_neg (by simp [hin])]
    simp [configure_sm6150_audio, exec_root_cmd, hb0, hb1, hb2, hb3, hfail,
      enableCmds, PJ_SUCCESS, PJ_EUNKNOWN, setTrace_trace]

/-- C3 witness: the runner failing exactly on the third tinymix command
makes start on fresh slot 0 return PJ_EUNKNOWN with exactly the first
three enable commands issued. -/
theorem C3_witness :
    (0 : Int) ≤ 0 ∧ (0 : Int) < MAX_SIMS ∧
    (getBridge initialState 0).active = false ∧ 2 < 5 ∧
    (∀ c ∈ enableCmds.take 2, failTxMuteRunner c = 0) ∧
    failTxMuteRunner (enableCmds.getD 2 noCmd) ≠ 0 ∧
    ((audio_bridge_start failTxMuteRunner 0 5 6 initialState).1 =
       PJ_EUNKNOWN ∧
     (audio_bridge_start failTxMuteRunner 0 5 6 initialState).2.trace =
       initialState.trace ++ enableCmds.take 3) :=
  ⟨by decide, by decide, by decide, by decide, by decide, by decide,
    C3_tinymix_fail_fast failTxMuteRunner 0 5 6 initialState (by decide)
      (by decide) (by decide) 2 (by decide) (by decide) (by decide)⟩

/-- C9: start does not require a prior init.  For an in-range slot whose
record is still the all-zero record (never initialized, pool NULL): if
start succeeds, the record becomes active with the pool still NULL and
all other fields still zero; and start reads only the record's active
flag — replacing the record by any other inactive record changes neither
start's status nor the commands it issues. -/
theorem C9_start_without_init (runner : String → Int) (slot : Int)
    (local_sdp remote_sdp : Nat) (st : GlobalState)
    (h0 : 0 ≤ slot) (h1 : slot < MAX_SIMS)
    (hz : getBridge st slot = zeroBridge) :
    ((audio_bridge_start runner slot local_sdp remote_sdp st).1 =
        PJ_SUCCESS →
      getBridge (audio_bridge_start runner slot local_sdp remote_sdp st).2
          slot = ⟨true, 0, 0, 0⟩) ∧
    (∀ b : audio_bridge_state, b.active = false →
      (audio_bridge_start runner slot local_sdp remote_sdp
          (setBridge st slot b)).1 =
        (audio_bridge_start runner slot local_sdp remote_sdp st).1 ∧
      (audio_bridge_start runner slot local_sdp remote_sdp
          (setBridge st slot b)).2.trace =
        (audio_bridge_start runner slot local_sdp remote_sdp st).2.trace) := by
  have hc := inRange_cond h0 h1
  have hin : (getBridge st slot).active = false := by rw [hz]; rfl
  constructor
  · intro hs
    by_cases hcfg :
        (configure_sm6150_audio runner true st.trace).1 = PJ_SUCCESS
    · unfold audio_bridge_start
      rw [if_neg hc, if_neg (by simp [hin])]
      simp [hcfg, getBridge_setBridge, getBridge_setTrace, hz, zeroBridge]
    · exfalso
      unfold audio_bridge_start at hs
      rw [if_neg hc, if_neg (by simp [hin])] at hs
      simp [hcfg] at hs
  · intro b hb
    have htr : (setBridge st slot b).trace = st.trace := setBridge_trace st slot b
    unfold audio_bridge_start
    by_cases hcfg :
        (configure_sm6150_audio runner true st.trace).1 = PJ_SUCCESS <;>
      simp [hc, getBridge_setBridge, hb, hin, htr, hcfg, setBridge_trace,
        setTrace_trace]

/-- C9 witness: with the all-succeeding runner on the fresh, never
initialized slot 0, start succeeds leaving active = true and pool NULL,
and its status and issued commands match those after replacing the record
by a different inactive record. -/
theorem C9_witness :
    (0 : Int) ≤ 0 ∧ (0 : Int) < MAX_SIMS ∧
    getBridge initialState 0 = zeroBridge ∧
    (((audio_bridge_start okRunner 0 5 6 initialState).1 = PJ_SUCCESS →
       getBridge (audio_bridge_start okRunner 0 5 6 initialState).2 0 =
         ⟨true, 0, 0, 0⟩) ∧
     (∀ b : audio_bridge_state, b.active = false →
       (audio_bridge_start okRunner 0 5 6
           (setBridge initialState 0 b)).1 =
         (audio_bridge_start okRunner 0 5 6 initialState).1 ∧
       (audio_bridge_start okRunner 0 5 6
           (setBridge initialState 0 b)).2.trace =
         (audio_bridge_start okRunner 0 5 6 initialState).2.trace)) :=
  ⟨by decide, by decide, by decide,
    C9_start_without_init okRunner 0 5 6 initialState (by decide) (by decide)
      (by decide)⟩

/-- C1: for every in-range slot whose record is active, audio_bridge_stop
clears the active flag afterwards, for every runner (so also when every
restoration command fails); stop has no return value, so
restoration-command failures are never propagated to the caller. -/
theorem C1_stop_clears_active (runner : String → Int) (slot : Int)
    (st : GlobalState) (h0 : 0 ≤ slot) (h1 : slot < MAX_SIMS)
    (ha : (getBridge st slot).active = true) :
    (getBridge (audio_bridge_stop runner slot st) slot).active = false := by
  have hc := inRange_cond h0 h1
  unfold audio_bridge_stop
  rw [if_neg hc, if_neg (by simp [ha])]
  simp [getBridge_setBridge]

/-- C1 witness: stopping the active slot 0 with a runner on which every
restoration command fails still leaves the record inactive. -/
theorem C1_witness :
    (0 : Int) ≤ 0 ∧ (0 : Int) < MAX_SIMS ∧
    (getBridge stActive0 0).active = true ∧
    (getBridge (audio_bridge_stop failRunner 0 stActive0) 0).active = false :=
  ⟨by decide, by decide, by decide,
    C1_stop_clears_active failRunner 0 stActive0 (by decide) (by decide)
      (by decide)⟩

/-- C4: for every slot outside [0, MAX_SIMS), audio_bridge_init and
audio_bridge_start return PJ_EINVAL, audio_bridge_stop and
audio_bridge_destroy return silently, and in all four cases the state is
returned completely unchanged; the results do not depend on any record
(the state variable is universally quantified and passed through
untouched). -/
theorem C4_out_of_range_noop (slot : Int)
    (hout : slot < 0 ∨ MAX_SIMS ≤ slot) (runner : String → Int)
    (med_endpt poolResult local_sdp remote_sdp : Nat) (st : GlobalState) :
    audio_bridge_init slot med_endpt poolResult st = (PJ_EINVAL, st) ∧
    audio_bridge_start runner slot local_sdp remote_sdp st = (PJ_EINVAL, st) ∧
    audio_bridge_stop runner slot st = st ∧
    audio_bridge_destroy runner slot st = st := by
  simp [audio_bridge_init, audio_bridge_start, audio_bridge_stop,
    audio_bridge_destroy, hout]

/-- C4 witness: slot 2 is out of range and all four entry points leave a
concrete state untouched. -/
theorem C4_witness :
    ((2 : Int) < 0 ∨ MAX_SIMS ≤ 2) ∧
    (audio_bridge_init 2 3 4 stActive0 = (PJ_EINVAL, stActive0) ∧
     audio_bridge_start okRunner 2 5 6 stActive0 = (PJ_EINVAL, stActive0) ∧
     audio_bridge_stop okRunner 2 stActive0 = stActive0 ∧
     audio_bridge_destroy okRunner 2 stActive0 = stActive0) :=
  ⟨by decide, C4_out_of_range_noop 2 (by decide) okRunner 3 4 5 6 stActive0⟩

/-- C7: for an in-range slot, if audio_bridge_init returns PJ_SUCCESS the
record holds a non-null pool, active = false, the slot index and the
given endpoint reference; and init returns PJ_ENOMEM exactly when pool
acquisition returned NULL. -/
theorem C7_init_postcondition (slot : Int) (med_endpt poolResult : Nat)
    (st : GlobalState) (h0 : 0 ≤ slot) (h1 : slot < MAX_SIMS) :
    ((audio_bridge_init slot med_endpt poolResult st).1 = PJ_SUCCESS →
      poolResult ≠ 0 ∧
      getBridge (audio_bridge_init slot med_endpt poolResult st).2 slot =
        ⟨false, slot, med_endpt, poolResult⟩) ∧
    ((audio_bridge_init slot med_endpt poolResult st).1 = PJ_ENOMEM ↔
      poolResult = 0) := by
  have hc := inRange_cond h0 h1
  by_cases hp : poolResult = 0 <;>
    simp [audio_bridge_init, hc, hp, getBridge_setBridge, PJ_SUCCESS,
      PJ_ENOMEM]

/-- C7 witness: a successful init of slot 0 with endpoint 3 and pool 7
stores exactly those values with active = false, and does not report
PJ_ENOMEM. -/
theorem C7_witness :
    (0 : Int) ≤ 0 ∧ (0 : Int) < MAX_SIMS ∧
    (((audio_bridge_init 0 3 7 initialState).1 = PJ_SUCCESS →
        (7 : Nat) ≠ 0 ∧
        getBridge (audio_bridge_init 0 3 7 initialState).2 0 =
          ⟨false, 0, 3, 7⟩) ∧
     ((audio_bridge_init 0 3 7 initialState).1 = PJ_ENOMEM ↔ (7 : Nat) = 0)) :=
  ⟨by decide, by decide,
    C7_init_postcondition 0 3 7 initialState (by decide) (by decide)⟩

/-- C10: for an in-range slot, audio_bridge_init unconditionally
overwrites the record with the zeroed-then-filled record regardless of
its prior contents, never releases any pool (the released list is
unchanged), and leaves the active flag false after every init call,
successful or not. -/
theorem C10_init_unconditional_overwrite (slot : Int)
    (med_endpt poolResult : Nat) (st : GlobalState)
    (h0 : 0 ≤ slot) (h1 : slot < MAX_SIMS) :
    audio_bridge_init slot med_endpt poolResult st =
      ((if poolResult = 0 then PJ_ENOMEM else PJ_SUCCESS),
        setBridge st slot ⟨false, slot, med_endpt, poolResult⟩) ∧
    (audio_bridge_init slot med_endpt poolResult st).2.released =
      st.released ∧
    (getBridge (audio_bridge_init slot med_endpt poolResult st).2 slot).active
      = false := by
  have hc := inRange_cond h0 h1
  by_cases hp : poolResult = 0 <;>
    simp [audio_bridge_init, hc, hp, getBridge_setBridge, setBridge_released]

/-- C5: for every in-range slot and every prior state and runner, after
audio_bridge_destroy the record is fully zeroed (active = false, slot =
0, endpoint = 0, pool = NULL), and the commands destroy issues are
exactly the commands audio_bridge_stop would issue (so an active record
gets the stop behavior first, an inactive one gets no commands). -/
theorem C5_destroy_zeroes_record (runner : String → Int) (slot : Int)
    (st : GlobalState) (h0 : 0 ≤ slot) (h1 : slot < MAX_SIMS) :
    getBridge (audio_bridge_destroy runner slot st) slot = zeroBridge ∧
    (audio_bridge_destroy runner slot st).trace =
      (audio_bridge_stop runner slot st).trace := by
  have hc := inRange_cond h0 h1
  unfold audio_bridge_destroy
  rw [if_neg hc]
  constructor
  · simp [getBridge_setBridge]
  · by_cases hp : (getBridge (audio_bridge_stop runner slot st) slot).pool = 0 <;>
      simp [hp, setBridge_trace, releasePool_trace]

/-- C5 witness: destroying the active slot 0 (endpoint 3, pool 7) with an
all-failing runner zeroes the record and issues the same commands stop
would. -/
theorem C5_witness :
    (0 : Int) ≤ 0 ∧ (0 : Int) < MAX_SIMS ∧
    (getBridge (audio_bridge_destroy failRunner 0 stActive0) 0 = zeroBridge ∧
     (audio_bridge_destroy failRunner 0 stActive0).trace =
       (audio_bridge_stop failRunner 0 stActive0).trace) :=
  ⟨by decide, by decide,
    C5_destroy_zeroes_record failRunner 0 stActive0 (by decide) (by decide)⟩

/-- C6: for an in-range inactive slot, when the routing step of
audio_bridge_start fails, start returns the routing step's status and the
slot's record is unchanged, so in particular still inactive. -/
theorem C6_failed_start_keeps_record (runner : String → Int) (slot : Int)
    (local_sdp remote_sdp : Nat) (st : GlobalState)
    (h0 : 0 ≤ slot) (h1 : slot < MAX_SIMS)
    (hin : (getBridge st slot).active = false)
    (hf : (configure_sm6150_audio runner true st.trace).1 ≠ PJ_SUCCESS) :
    (audio_bridge_start runner slot local_sdp remote_sdp st).1 =
      (configure_sm6150_audio runner true st.trace).1 ∧
    getBridge (audio_bridge_start runner slot local_sdp remote_sdp st).2 slot =
      getBridge st slot ∧
    (getBridge (audio_bridge_start runner slot local_sdp remote_sdp st).2
        slot).active = false := by
  have hc := inRange_cond h0 h1
  unfold audio_bridge_start
  rw [if_neg hc, if_neg (by simp [hin])]
  simp [hf, getBridge_setTrace, hin]

/-- C6 witness: with an all-failing runner, start on the fresh slot 0
fails with the routing status and the record stays the zero record. -/
theorem C6_witness :
    (0 : Int) ≤ 0 ∧ (0 : Int) < MAX_SIMS ∧
    (getBridge initialState 0).active = false ∧
    (configure_sm6150_audio failRunner true initialState.trace).1 ≠
      PJ_SUCCESS ∧
    ((audio_bridge_start failRunner 0 5 6 initialState).1 =
       (configure_sm6150_audio failRunner true initialState.trace).1 ∧
     getBridge (audio_bridge_start failRunner 0 5 6 initialState).2 0 =
       getBridge initialState 0 ∧
     (getBridge (audio_bridge_start failRunner 0 5 6 initialState).2
         0).active = false) :=
  ⟨by decide, by decide, by decide, by decide,
    C6_failed_start_keeps_record failRunner 0 5 6 initialState (by decide)
      (by decide) (by decide) (by decide)⟩

/-- C8: against a runner that reports success for every command, start on
an in-range inactive slot appends exactly the seven enable commands in
source order, and stop on an in-range active slot appends exactly the
four disable commands in source order. -/
theorem C8_exact_command_sequences (runner : String → Int)
    (hok : ∀ c, runner c = 0) (slot : Int) (local_sdp remote_sdp : Nat)
    (stA stB : GlobalState) (h0 : 0 ≤ slot) (h1 : slot < MAX_SIMS)
    (hin : (getBridge stA slot).active = false)
    (ha : (getBridge stB slot).active = true) :
    (audio_bridge_start runner slot local_sdp remote_sdp stA).2.trace =
      stA.trace ++
        [cmdRxDeviceMute0, cmdTxDeviceMute0, cmdTxMute0, cmdRxGain,
         cmdHdVoice, cmdSpeakerOn, cmdModeInCall] ∧
    (audio_bridge_stop runner slot stB).trace =
      stB.trace ++
        [cmdModeNormal, cmdSpeakerOff, cmdRxDeviceMuteReset,
         cmdTxDeviceMuteReset] := by
  have hc := inRange_cond h0 h1
  constructor
  · unfold audio_bridge_start
    rw [if_neg hc, if_neg (by simp [hin])]
    simp [configure_enable_ok runner hok stA.trace, setBridge_trace,
      setTrace_trace, enableCmds, PJ_SUCCESS]
  · unfold audio_bridge_stop
    rw [if_neg hc, if_neg (by simp [ha])]
    simp [configure_disable_ok runner hok stB.trace, setBridge_trace,
      setTrace_trace, disableCmds]

/-- C8 witness: with the all-succeeding runner, starting fresh slot 0
records the seven enable commands, and stopping active slot 0 records the
four disable commands. -/
theorem C8_witness :
    (∀ c, okRunner c = 0) ∧ (0 : Int) ≤ 0 ∧ (0 : Int) < MAX_SIMS ∧
    (getBridge initialState 0).active = false ∧
    (getBridge stActive0 0).active = true ∧
    ((audio_bridge_start okRunner 0 5 6 initialState).2.trace =
       initialState.trace ++
         [cmdRxDeviceMute0, cmdTxDeviceMute0, cmdTxMute0, cmdRxGain,
          cmdHdVoice, cmdSpeakerOn, cmdModeInCall] ∧
     (audio_bridge_stop okRunner 0 stActive0).trace =
       stActive0.trace ++
         [cmdModeNormal, cmdSpeakerOff, cmdRxDeviceMuteReset,
          cmdTxDeviceMuteReset]) :=
  ⟨fun _ => rfl, by decide, by decide, by decide, by decide,
    C8_exact_command_sequences okRunner (fun _ => rfl) 0 5 6 initialState
      stActive0 (by decide) (by decide) (by decide) (by decide)⟩

/-- C10 witness: re-initializing slot 1, whose record already owns pool 9,
overwrites the record with pool 7 while the released list stays empty, so
pool 9 is discarded without being released. -/
theorem C10_witness :
    (0 : Int) ≤ 1 ∧ (1 : Int) < MAX_SIMS ∧
    (audio_bridge_init 1 4 7 stPool1 =
      ((if (7 : Nat) = 0 then PJ_ENOMEM else PJ_SUCCESS),
        setBridge stPool1 1 ⟨false, 1, 4, 7⟩) ∧
     (audio_bridge_init 1 4 7 stPool1).2.released = stPool1.released ∧
     (getBridge (audio_bridge_init 1 4 7 stPool1).2 1).active = false) :=
  ⟨by decide, by decide,
    C10_init_unconditional_overwrite 1 4 7 stPool1 (by decide) (by decide)⟩

end GsmGateway
